import Mathlib

/-
Shallow embedding of tuxemon/core/save.py: the versioned save-game
persistence subsystem (migration engine `upgrade_save`, corruption-tolerant
reader `open_save_file`, load operation `load`, latest-slot finder
`get_index_of_latest_save`).

Modelling conventions:
- A decoded save record is a `Value`: a JSON-like tree of numbers, strings,
  arrays and string-keyed objects, mirroring the data the two codecs
  (json / cbor) produce for this subsystem.  Python dicts preserve
  insertion order; updating an existing key keeps its position, adding a
  new key appends.  `dictInsert` reproduces this.
- Fallible Python code (KeyError, AttributeError, TypeError, ValueError)
  is embedded as `Option`: `none` means the Python code raises.
- The filesystem and the two codecs are parameters: `readFile` maps a path
  to its contents (`none` models IOError / missing file, the case the
  source catches as `IOError`), and `jsonLoad` / `cborLoad` map contents to
  a decoded record (`none` models the decode failure the source catches as
  `ValueError`).  Both decoders are applied to the same file contents.
- `prepare.SAVE_PATH` is process configuration; it is a `String` parameter.
-/

namespace TuxemonSave

/-- A decoded save value: numbers, strings, sequences and string-keyed
mappings, as produced by the json/cbor codecs for this subsystem. -/
inductive Value where
  | num  (n : Int)
  | str  (s : String)
  | list (elems : List Value)
  | dict (entries : List (String × Value))
deriving Repr

/-- Python dict lookup `d.get(k)` / `k in d`: first (only) binding of `k`. -/
def dictGet (d : List (String × Value)) (k : String) : Option Value :=
  (d.find? (fun p => p.1 == k)).map (fun p => p.2)

/-- Python dict assignment `d[k] = v`: update in place if `k` is present
(keeping its position), append otherwise. -/
def dictInsert (d : List (String × Value)) (k : String) (v : Value) :
    List (String × Value) :=
  if (d.find? (fun p => p.1 == k)).isSome then
    d.map (fun p => if p.1 == k then (k, v) else p)
  else
    d ++ [(k, v)]

/-- Python truthiness of a decoded value: zero, the empty string, the empty
list and the empty dict are falsy; everything else is truthy. -/
def Value.truthy : Value → Bool
  | .num n => n != 0
  | .str s => s != ""
  | .list l => !l.isEmpty
  | .dict d => !d.isEmpty

/-- Python subscript `v[k]` with a string key: succeeds only on a dict that
has the key (otherwise TypeError / KeyError). -/
def getItem (v : Value) (k : String) : Option Value :=
  match v with
  | .dict d => dictGet d k
  | _ => none

/-- Python item assignment `v[k] = x` with a string key: succeeds only on a
dict (otherwise TypeError). -/
def setItem (v : Value) (k : String) (x : Value) : Option Value :=
  match v with
  | .dict d => some (.dict (dictInsert d k x))
  | _ => none

/-- Everything after the first `c` in the character list; `[]` when `c`
does not occur.  This is `l.partition(c)[2]` on strings. -/
def afterFirst (c : Char) : List Char → List Char
  | [] => []
  | x :: xs => if x == c then xs else afterFirst c xs

/-- Python `s.partition("_")[2]`: the substring after the first underscore,
or the empty string when `s` has no underscore. -/
def partAfterUnderscore (s : String) : String :=
  ⟨afterFirst '_' s.data⟩

/-- The nested helper of `upgrade_save`:
`{key.partition("_")[2]: num for key, num in data.items()}`.
Requires a dict (`.items()` raises AttributeError otherwise); rebuilds it
key by key in iteration order, later duplicates overwriting earlier ones. -/
def fix_items (data : Value) : Option Value :=
  match data with
  | .dict entries =>
      some (.dict (entries.foldl
        (fun acc p => dictInsert acc (partAfterUnderscore p.1) p.2) []))
  | _ => none

/-- One iteration of the monster loop:
`mon['slug'] = mon['slug'].partition("_")[2]`.
Raises (returns `none`) when `mon` is not a dict, has no `slug` key, or its
slug is not a string. -/
def fixSlug (mon : Value) : Option Value :=
  match mon with
  | .dict entries =>
      match dictGet entries "slug" with
      | some (.str s) =>
          some (.dict (dictInsert entries "slug" (.str (partAfterUnderscore s))))
      | some _ => none
      | none => none
  | _ => none

/-- The monster loop `for mon in mons: ...` over one monster container.
The containers decoded from a save file are arrays; a non-list container
is treated as the error case. -/
def fixMonsters (mons : Value) : Option Value :=
  match mons with
  | .list l => (l.mapM fixSlug).map .list
  | _ => none

/-- Python `version == 0` where only integers occur as version values. -/
def isZeroNum : Value → Bool
  | .num 0 => true
  | _ => false

/-- `upgrade_save(save_data)` from tuxemon/core/save.py.

`version = save_data.get("version", 0)`; if it equals 0 the version-0 rule
runs: the inventory mapping and the chest (`storage`) items mapping are
rewritten with `fix_items`, and every monster slug in the top-level list and
in the chest list is stripped of its prefix up to the first underscore.
`chest` aliases `save_data['storage']` when that key is present (mutations
flow back into the record) and is a fresh temporary dict otherwise.
Note the source never writes the `version` field.  `none` models a raised
exception. -/
def upgrade_save (save_data : Value) : Option Value :=
  match save_data with
  | .dict entries0 =>
    let version := (dictGet entries0 "version").getD (.num 0)
    if isZeroNum version then do
      let storagePresent := (dictGet entries0 "storage").isSome
      let chest0 := (dictGet entries0 "storage").getD (.dict [])
      let inv ← fix_items ((dictGet entries0 "inventory").getD (.dict []))
      let entries1 := dictInsert entries0 "inventory" inv
      let chestEntries ←
        match chest0 with
        | .dict d => some d
        | _ => none
      let chestItems ← fix_items ((dictGet chestEntries "items").getD (.dict []))
      let chest1 := dictInsert chestEntries "items" chestItems
      let topMonsPresent := (dictGet entries1 "monsters").isSome
      let topMons := (dictGet entries1 "monsters").getD (.list [])
      let chestMonsPresent := (dictGet chest1 "monsters").isSome
      let chestMons := (dictGet chest1 "monsters").getD (.list [])
      let topMons2 ← fixMonsters topMons
      let chestMons2 ← fixMonsters chestMons
      let entries2 :=
        if topMonsPresent then dictInsert entries1 "monsters" topMons2 else entries1
      let chest2 :=
        if chestMonsPresent then dictInsert chest1 "monsters" chestMons2 else chest1
      let entries3 :=
        if storagePresent then dictInsert entries2 "storage" (.dict chest2) else entries2
      some (.dict entries3)
    else
      some save_data
  | _ => none

/-- `open_save_file(save_path)` from tuxemon/core/save.py.

Outer `none` is the IOError branch of the source (missing or unreadable
file): the function returns Python `None`.  Otherwise it tries the json
decoder, falls back to the cbor decoder, and returns the empty dict when
both fail. -/
def open_save_file (readFile : String → Option String)
    (jsonLoad cborLoad : String → Option Value) (save_path : String) :
    Option Value :=
  match readFile save_path with
  | none => none
  | some contents =>
    match jsonLoad contents with
    | some v => some v
    | none =>
      match cborLoad contents with
      | some v => some v
      | none => some (.dict [])

/-- The corrupt-file branch of `load`:
`save_data["error"] = "Save file corrupted"; save_data["player_name"] = "BROKEN SAVE!"`,
then the record is returned. -/
def markCorrupt (save_data : Value) : Option Value := do
  let v1 ← setItem save_data "error" (.str "Save file corrupted")
  setItem v1 "player_name" (.str "BROKEN SAVE!")

/-- `load(slot)` from tuxemon/core/save.py.

The result is `Option (Option Value)`: the outer layer models a raised
exception (`none`), the inner layer models Python `None`.
The source tests `if save_data:` (truthiness), then `elif save_data is None:`,
and otherwise takes the corrupt branch. -/
def load (SAVE_PATH : String) (readFile : String → Option String)
    (jsonLoad cborLoad : String → Option Value) (slot : Nat) :
    Option (Option Value) :=
  let save_path := SAVE_PATH ++ toString slot ++ ".save"
  match open_save_file readFile jsonLoad cborLoad save_path with
  | some save_data =>
      if save_data.truthy then (upgrade_save save_data).map some
      else (markCorrupt save_data).map some
  | none => some none

/-- Digits-to-number reading used by the timestamp field parser: the whole
chunk must be nonempty and numeric. -/
def readDigits (l : List Char) : Option Nat :=
  if l ≠ [] ∧ l.all Char.isDigit then
    some (l.foldl (fun acc c => acc * 10 + (c.toNat - 48)) 0)
  else
    none

/-- Splitting a character list on a separator character, keeping empty
chunks, as `str.split` does for a single-character separator. -/
def splitOnChar (c : Char) : List Char → List (List Char)
  | [] => [[]]
  | x :: xs =>
    let r := splitOnChar c xs
    if x == c then [] :: r
    else
      match r with
      | [] => [[x]]
      | h :: t => (x :: h) :: t

/-- `datetime.datetime.strptime(s, "%Y-%m-%d %H:%M")`, embedded as a parse
into a single order-preserving key
`(((year * 100 + month) * 100 + day) * 100 + hour) * 100 + minute`
(the five fields compare lexicographically, and month/day/hour/minute are
each validated below 100, so the packed naturals compare the same way
`datetime` values do).  `none` models the ValueError raised on a string
that does not match the format. -/
def strptimeSave (s : String) : Option Nat :=
  match splitOnChar ' ' s.data with
  | [datePart, timePart] =>
    match splitOnChar '-' datePart, splitOnChar ':' timePart with
    | [ys, ms, ds], [hs, mis] =>
      match readDigits ys, readDigits ms, readDigits ds,
            readDigits hs, readDigits mis with
      | some y, some m, some d, some h, some mi =>
          if 1 ≤ m ∧ m ≤ 12 ∧ 1 ≤ d ∧ d ≤ 31 ∧ h ≤ 23 ∧ mi ≤ 59 then
            some ((((y * 100 + m) * 100 + d) * 100 + h) * 100 + mi)
          else none
      | _, _, _, _, _ => none
    | _, _ => none
  | _ => none

/-- One iteration of the scan loop of `get_index_of_latest_save` for a
given zero-based `slot_index`: read the file of slot `slot_index + 1`;
when `open_save_file` returned Python `None` the slot is skipped
(`some none`); otherwise `save_data['time']` is subscripted and parsed,
either of which can raise (`none`). -/
def scanSlot (SAVE_PATH : String) (readFile : String → Option String)
    (jsonLoad cborLoad : String → Option Value) (slot_index : Nat) :
    Option (Option (Nat × Nat)) :=
  let save_path := SAVE_PATH ++ toString (slot_index + 1) ++ ".save"
  match open_save_file readFile jsonLoad cborLoad save_path with
  | none => some none
  | some save_data =>
    match getItem save_data "time" with
    | some (.str s) =>
        match strptimeSave s with
        | some t => some (some (slot_index, t))
        | none => none
    | some _ => none
    | none => none

/-- `get_index_of_latest_save()` from tuxemon/core/save.py.

Scans `slot_index` in `range(3)`, collecting `(slot_index, parsed_time)`
pairs; returns `max(times, key=itemgetter(1))[0]` (first maximum wins on
ties, as Python `max` keeps the earliest maximal element) or Python `None`
when no pair was collected.  Outer `none` models a raised exception. -/
def get_index_of_latest_save (SAVE_PATH : String)
    (readFile : String → Option String)
    (jsonLoad cborLoad : String → Option Value) : Option (Option Nat) :=
  match (List.range 3).foldl
      (fun acc slot_index =>
        acc.bind (fun ts =>
          (scanSlot SAVE_PATH readFile jsonLoad cborLoad slot_index).map
            (fun r => ts ++ r.toList)))
      (some ([] : List (Nat × Nat))) with
  | none => none
  | some [] => some none
  | some (t :: ts) =>
      some (some ((ts.foldl (fun best y => if best.2 < y.2 then y else best) t).1))

/-! Concrete inputs used by the theorems below: the spec's version-0
migration example, and small filesystems / decoders for the reader, load
and latest-slot scenarios. -/

/-- The version-0 migration example record of the spec (no `version` key). -/
def exampleV0 : Value := .dict [
  ("inventory", .dict [("item_potion", .num 3)]),
  ("storage", .dict [
    ("items", .dict [("item_elixir", .num 1)]),
    ("monsters", .list [.dict [("slug", .str "mon_rattata"), ("level", .num 5)]])]),
  ("monsters", .list [.dict [("slug", .str "mon_pidgey"), ("level", .num 2)]])]

/-- What `upgrade_save` actually produces on `exampleV0`. -/
def exampleV0Upgraded : List (String × Value) := [
  ("inventory", .dict [("potion", .num 3)]),
  ("storage", .dict [
    ("items", .dict [("elixir", .num 1)]),
    ("monsters", .list [.dict [("slug", .str "rattata"), ("level", .num 5)]])]),
  ("monsters", .list [.dict [("slug", .str "pidgey"), ("level", .num 2)]])]

/-- A decoder that fails on every input. -/
def decodeNone : String → Option Value := fun _ => none

/-- A decoder that decodes every input to the empty record. -/
def decodeEmptyDict : String → Option Value := fun _ => some (.dict [])

/-- Filesystem of the latest-slot scenario: slots 1 and 2 exist, slot 3 is
absent. -/
def latestReadFile : String → Option String := fun p =>
  if p == "save/1.save" then some "A"
  else if p == "save/2.save" then some "B"
  else none

/-- Json decoder of the latest-slot scenario: slot 1 holds time
2024-01-01 10:00, slot 2 holds time 2024-03-15 09:30. -/
def latestJsonDecode : String → Option Value := fun c =>
  if c == "A" then some (.dict [("time", .str "2024-01-01 10:00")])
  else if c == "B" then some (.dict [("time", .str "2024-03-15 09:30")])
  else none

/-- Filesystem with a single slot-1 file whose contents decode under
neither codec (when paired with `decodeNone`). -/
def oneFileReadFile : String → Option String := fun p =>
  if p == "save/1.save" then some "X" else none

/-! Claim theorems. -/

/-- Claim C5 (confirmed): when the slot file exists and the first codec
fails to decode its contents, `open_save_file` falls back to the second
codec; when that also fails it returns the corrupt marker (the empty
record) instead of propagating the decode failure — in this embedding the
result is always in the `some` channel, never an exception. -/
theorem open_save_file_second_codec (readFile : String → Option String)
    (jsonLoad cborLoad : String → Option Value) (save_path contents : String)
    (h1 : readFile save_path = some contents)
    (h2 : jsonLoad contents = none) :
    open_save_file readFile jsonLoad cborLoad save_path
      = some ((cborLoad contents).getD (Value.dict [])) := by
  cases hc : cborLoad contents <;> simp [open_save_file, h1, h2, hc]

/-- Witness for C5: both codecs fail on the concrete slot-1 file, and the
reader returns the corrupt empty record. -/
theorem open_save_file_second_codec_witness :
    open_save_file oneFileReadFile decodeNone decodeNone "save/1.save"
      = some ((decodeNone "X").getD (Value.dict [])) :=
  open_save_file_second_codec oneFileReadFile decodeNone decodeNone
    "save/1.save" "X" rfl rfl

/-- Claim C9 (confirmed): for a slot with no file on disk (the IOError
branch of `open_save_file`), `load` returns Python `None` and raises no
exception (the result sits in the outer `some` channel). -/
theorem load_missing_file_returns_none (SAVE_PATH : String)
    (readFile : String → Option String)
    (jsonLoad cborLoad : String → Option Value) (slot : Nat)
    (h : readFile (SAVE_PATH ++ toString slot ++ ".save") = none) :
    load SAVE_PATH readFile jsonLoad cborLoad slot = some none := by
  simp [load, open_save_file, h]

/-- Witness for C9: loading slot 3 on the filesystem that only carries a
slot-1 file returns Python `None`. -/
theorem load_missing_file_returns_none_witness :
    load "save/" oneFileReadFile decodeNone decodeNone 3 = some none :=
  load_missing_file_returns_none "save/" oneFileReadFile decodeNone
    decodeNone 3 rfl

/-- Claim C8 (confirmed): for a slot whose file exists but decodes under
neither codec, `load` returns the sentinel record whose `error` field is
"Save file corrupted" and whose `player_name` field is "BROKEN SAVE!",
and this returned record is distinct from Python `None`. -/
theorem load_corrupt_file_returns_sentinel (SAVE_PATH : String)
    (readFile : String → Option String)
    (jsonLoad cborLoad : String → Option Value) (slot : Nat)
    (contents : String)
    (h1 : readFile (SAVE_PATH ++ toString slot ++ ".save") = some contents)
    (h2 : jsonLoad contents = none) (h3 : cborLoad contents = none) :
    load SAVE_PATH readFile jsonLoad cborLoad slot
      = some (some (.dict [("error", .str "Save file corrupted"),
                           ("player_name", .str "BROKEN SAVE!")]))
    ∧ (some (Value.dict [("error", .str "Save file corrupted"),
                         ("player_name", .str "BROKEN SAVE!")])
        : Option Value) ≠ none := by
  constructor
  · simp [load, open_save_file, h1, h2, h3, Value.truthy, markCorrupt,
      setItem, dictInsert, dictGet]
  · simp

/-- Witness for C8: loading slot 1 on the one-file filesystem with both
codecs failing yields the sentinel record. -/
theorem load_corrupt_file_returns_sentinel_witness :
    load "save/" oneFileReadFile decodeNone decodeNone 1
      = some (some (.dict [("error", .str "Save file corrupted"),
                           ("player_name", .str "BROKEN SAVE!")]))
    ∧ (some (Value.dict [("error", .str "Save file corrupted"),
                         ("player_name", .str "BROKEN SAVE!")])
        : Option Value) ≠ none :=
  load_corrupt_file_returns_sentinel "save/" oneFileReadFile decodeNone
    decodeNone 1 "X" rfl rfl rfl

/-- Claim C10 (confirmed): when the slot file exists and decodes
successfully to the empty record, `load` does not return that empty
record: the empty dict is falsy, `if save_data:` fails, `save_data is
None` fails, and the corrupt branch returns the sentinel record instead.
The returned record differs from the decoded empty record. -/
theorem load_empty_decoded_record_treated_corrupt (SAVE_PATH : String)
    (readFile : String → Option String)
    (jsonLoad cborLoad : String → Option Value) (slot : Nat)
    (contents : String)
    (h1 : readFile (SAVE_PATH ++ toString slot ++ ".save") = some contents)
    (h2 : jsonLoad contents = some (.dict [])) :
    load SAVE_PATH readFile jsonLoad cborLoad slot
      = some (some (.dict [("error", .str "Save file corrupted"),
                           ("player_name", .str "BROKEN SAVE!")]))
    ∧ Value.dict [("error", .str "Save file corrupted"),
                  ("player_name", .str "BROKEN SAVE!")]
        ≠ Value.dict [] := by
  constructor
  · simp [load, open_save_file, h1, h2, Value.truthy, markCorrupt,
      setItem, dictInsert, dictGet]
  · simp

/-- Witness for C10: a file decoding to the empty record loads as the
sentinel record, not as the empty record. -/
theorem load_empty_decoded_record_treated_corrupt_witness :
    load "save/" oneFileReadFile decodeEmptyDict decodeNone 1
      = some (some (.dict [("error", .str "Save file corrupted"),
                           ("player_name", .str "BROKEN SAVE!")]))
    ∧ Value.dict [("error", .str "Save file corrupted"),
                  ("player_name", .str "BROKEN SAVE!")]
        ≠ Value.dict [] :=
  load_empty_decoded_record_treated_corrupt "save/" oneFileReadFile
    decodeEmptyDict decodeNone 1 "X" rfl rfl

/-- Counterexample for C1: migration is not idempotent.  On the version-0
record with inventory key "item_potion", one upgrade yields key "potion"
(and, since `upgrade_save` never writes the `version` field, the result is
still treated as version 0), so a second upgrade strips again and yields
the key "" — a different record.  Hence
`upgrade(upgrade(r))` differs from `upgrade(r)` at this record. -/
theorem upgrade_save_not_idempotent :
    upgrade_save (.dict [("inventory", .dict [("item_potion", .num 3)])])
      = some (.dict [("inventory", .dict [("potion", .num 3)])])
    ∧ upgrade_save (.dict [("inventory", .dict [("potion", .num 3)])])
      = some (.dict [("inventory", .dict [("", .num 3)])])
    ∧ Value.dict [("inventory", .dict [("", .num 3)])]
      ≠ Value.dict [("inventory", .dict [("potion", .num 3)])] := by
  refine ⟨rfl, rfl, ?_⟩
  simp

/-- Claim C1 (corrected): the second half of the claim holds — a record
whose `version` field equals 1 is returned unchanged by `upgrade_save` —
but full idempotence fails because the version-0 rule never writes the
`version` field (see the counterexample). -/
theorem upgrade_save_noop_on_version_one (entries : List (String × Value))
    (h : dictGet entries "version" = some (.num 1)) :
    upgrade_save (.dict entries) = some (.dict entries) := by
  simp [upgrade_save, h, isZeroNum]

/-- Witness for C1: the concrete record with `version` = 1 passes through
`upgrade_save` unchanged. -/
theorem upgrade_save_noop_on_version_one_witness :
    upgrade_save (.dict [("version", .num 1),
                         ("inventory", .dict [("item_potion", .num 3)])])
      = some (.dict [("version", .num 1),
                     ("inventory", .dict [("item_potion", .num 3)])]) :=
  upgrade_save_noop_on_version_one
    [("version", .num 1), ("inventory", .dict [("item_potion", .num 3)])] rfl

/-- Counterexample for C2: on the spec's version-0 example record,
`upgrade_save` performs all the claimed key/slug renames but produces no
`version` field at all (the source never assigns it), so the claimed
"version field equal to 1" is false. -/
theorem upgrade_save_example_version_not_one :
    upgrade_save exampleV0 = some (.dict exampleV0Upgraded)
    ∧ dictGet exampleV0Upgraded "version" = none
    ∧ (none : Option Value) ≠ some (.num 1) := by
  refine ⟨rfl, rfl, ?_⟩
  simp

/-- Claim C2 (corrected): upgrading the spec's version-0 example yields
inventory key "potion" mapped to 3, chest item key "elixir" mapped to 1,
chest monster slug "rattata" and top-level monster slug "pidgey", exactly
as claimed — but the `version` field is absent from the result (still
treated as version 0), not equal to 1. -/
theorem upgrade_save_example_renames :
    upgrade_save exampleV0 = some (.dict exampleV0Upgraded)
    ∧ dictGet exampleV0Upgraded "inventory" = some (.dict [("potion", .num 3)])
    ∧ (dictGet exampleV0Upgraded "storage").bind (fun c => getItem c "items")
      = some (.dict [("elixir", .num 1)])
    ∧ (dictGet exampleV0Upgraded "storage").bind (fun c => getItem c "monsters")
      = some (.list [.dict [("slug", .str "rattata"), ("level", .num 5)]])
    ∧ dictGet exampleV0Upgraded "monsters"
      = some (.list [.dict [("slug", .str "pidgey"), ("level", .num 2)]])
    ∧ dictGet exampleV0Upgraded "version" = none :=
  ⟨rfl, rfl, rfl, rfl, rfl, rfl⟩

/-- Counterexample for C6: an inventory key with no underscore is not left
unchanged by `upgrade_save`: `"potion".partition("_")[2]` is the empty
string, so the key "potion" is rewritten to "". -/
theorem upgrade_save_no_underscore_key_rewritten :
    upgrade_save (.dict [("inventory", .dict [("potion", .num 3)])])
      = some (.dict [("inventory", .dict [("", .num 3)])])
    ∧ ("" : String) ≠ "potion" := by
  refine ⟨rfl, ?_⟩
  simp

/-- When `c` does not occur in `l` there is nothing after its first
occurrence: the partition tail is empty. -/
lemma afterFirst_of_not_mem (c : Char) (l : List Char) (h : c ∉ l) :
    afterFirst c l = [] := by
  induction l with
  | nil => rfl
  | cons x xs ih =>
    have h1 : c ≠ x := fun e => h (e ▸ List.mem_cons_self x xs)
    have h2 : c ∉ xs := fun m => h (List.mem_cons_of_mem _ m)
    have hx : x ≠ c := fun e => h1 e.symm
    simp [afterFirst, hx, ih h2]

/-- Claim C6 (corrected): a key or slug with no underscore is not left
unchanged — `partition("_")[2]` drops everything up to the first
underscore, so with no underscore present the whole key is dropped and the
rewrite produces the empty string (values and other fields preserved). -/
theorem upgrade_no_underscore_key_becomes_empty :
    (∀ (k : String) (v : Value), ('_' ∈ k.data → False) →
        fix_items (.dict [(k, v)]) = some (.dict [("", v)]))
    ∧ (∀ s : String, ('_' ∈ s.data → False) →
        fixSlug (.dict [("slug", .str s)]) = some (.dict [("slug", .str "")])) := by
  constructor
  · intro k v h
    have hp : partAfterUnderscore k = "" := by
      unfold partAfterUnderscore
      rw [afterFirst_of_not_mem _ _ h]
    simp [fix_items, dictInsert, hp]
  · intro s h
    have hp : partAfterUnderscore s = "" := by
      unfold partAfterUnderscore
      rw [afterFirst_of_not_mem _ _ h]
    simp [fixSlug, dictGet, dictInsert, hp]

/-- Witness for C6: the underscore-free key "potion" is rewritten to ""
(its quantity preserved), and the underscore-free slug "pidgey" is
rewritten to "". -/
theorem upgrade_no_underscore_key_becomes_empty_witness :
    fix_items (.dict [("potion", .num 3)]) = some (.dict [("", .num 3)])
    ∧ fixSlug (.dict [("slug", .str "pidgey")])
        = some (.dict [("slug", .str "")]) :=
  ⟨upgrade_no_underscore_key_becomes_empty.1 "potion" (.num 3) (by decide),
   upgrade_no_underscore_key_becomes_empty.2 "pidgey" (by decide)⟩

/-- Counterexample for C3: in the scenario of the claim (slot 1 at time
2024-01-01 10:00, slot 2 at time 2024-03-15 09:30, slot 3 absent) the
finder does not return 2: it collects zero-based `slot_index` values and
returns `max(times, key=itemgetter(1))[0]`, which here is 1. -/
theorem latest_scenario_not_two :
    get_index_of_latest_save "save/" latestReadFile latestJsonDecode decodeNone
      = some (some 1)
    ∧ (some (some 1) : Option (Option Nat)) ≠ some (some 2) := by
  refine ⟨by rfl, by simp⟩

/-- Claim C3 (corrected): in the scenario of the claim the finder selects
the slot with the maximum parsed timestamp — slot 2 — but returns its
zero-based index 1 (the loop stores `slot_index` for the file named
`slot_index + 1`), not the slot number 2. -/
theorem latest_scenario_returns_zero_based_index :
    get_index_of_latest_save "save/" latestReadFile latestJsonDecode decodeNone
      = some (some 1) := by
  rfl

/-- Counterexample for C4: a slot whose file exists but decodes under
neither codec is not silently skipped.  `open_save_file` returns the empty
record (not Python `None`), the `is not None` guard passes, and
`save_data['time']` raises KeyError, which propagates out of the finder
(outer `none`) instead of the claimed skip-and-return-None behavior. -/
theorem latest_scan_corrupt_slot_raises :
    get_index_of_latest_save "save/" oneFileReadFile decodeNone decodeNone
      = none
    ∧ (none : Option (Option Nat)) ≠ some none := by
  refine ⟨by rfl, by simp⟩

/-- Claim C4 (corrected): slots whose file is absent are silently skipped
(the `is not None` guard filters exactly the IOError case), and when every
slot file is absent the finder returns Python `None`; but a slot whose
contents are unreadable under both codecs is not skipped — it raises
KeyError (see the counterexample). -/
theorem latest_scan_all_absent_returns_none (SAVE_PATH : String)
    (readFile : String → Option String)
    (jsonLoad cborLoad : String → Option Value)
    (h : ∀ p, readFile p = none) :
    get_index_of_latest_save SAVE_PATH readFile jsonLoad cborLoad
      = some none := by
  have hr : List.range 3 = [0, 1, 2] := rfl
  simp [get_index_of_latest_save, hr, scanSlot, open_save_file, h]

/-- Witness for C4: on the filesystem with no files at all the finder
returns Python `None` without raising. -/
theorem latest_scan_all_absent_returns_none_witness :
    get_index_of_latest_save "save/" (fun _ => none) decodeNone decodeNone
      = some none :=
  latest_scan_all_absent_returns_none "save/" (fun _ => none) decodeNone
    decodeNone (fun _ => rfl)

/-- Counterexample for C7: `upgrade_save` is not total.  On the record
whose monster list contains a monster without a `slug` field, the source
evaluates `mon['slug']` and raises KeyError (`none` in this embedding)
instead of returning a record. -/
theorem upgrade_save_missing_slug_raises :
    upgrade_save (.dict [("monsters", .list [.dict []])]) = none := by
  rfl

/-- Updating key `k` in place leaves lookups of a different key `k'`
untouched. -/
lemma find?_update_ne (d : List (String × Value)) (k k' : String) (v : Value)
    (h : k ≠ k') :
    (d.map (fun p => if p.1 == k then (k, v) else p)).find? (fun p => p.1 == k')
      = d.find? (fun p => p.1 == k') := by
  induction d with
  | nil => rfl
  | cons p ps ih =>
    by_cases hp : (p.1 == k) = true
    · have hpk : p.1 = k := by simpa using hp
      have hk1 : (k == k') = false := by simp [h]
      have hp1 : (p.1 == k') = false := by simp [hpk, h]
      simp only [List.map_cons, if_pos hp, List.find?_cons, hk1, hp1, ih]
    · by_cases hq : (p.1 == k') = true
      · simp only [List.map_cons, if_neg hp, List.find?_cons, hq]
      · have hq1 : (p.1 == k') = false := by simpa using hq
        simp only [List.map_cons, if_neg hp, List.find?_cons, hq1, ih]

/-- Appending a binding for key `k` leaves lookups of a different key `k'`
untouched. -/
lemma find?_append_ne (d : List (String × Value)) (k k' : String) (v : Value)
    (h : k ≠ k') :
    (d ++ [(k, v)]).find? (fun p => p.1 == k')
      = d.find? (fun p => p.1 == k') := by
  induction d with
  | nil =>
    have hk1 : (k == k') = false := by simp [h]
    simp only [List.nil_append, List.find?_cons, hk1]
  | cons p ps ih =>
    by_cases hq : (p.1 == k') = true
    · simp only [List.cons_append, List.find?_cons, hq]
    · have hq1 : (p.1 == k') = false := by simpa using hq
      simp only [List.cons_append, List.find?_cons, hq1, ih]

/-- Python dict assignment of key `k` does not change lookups of a
different key `k'`. -/
lemma dictGet_dictInsert_ne (d : List (String × Value)) (k k' : String)
    (v : Value) (h : k ≠ k') :
    dictGet (dictInsert d k v) k' = dictGet d k' := by
  unfold dictGet dictInsert
  by_cases hs : (d.find? (fun p => p.1 == k)).isSome = true
  · rw [if_pos hs, find?_update_ne d k k' v h]
  · rw [if_neg hs, find?_append_ne d k k' v h]

/-- Claim C7 (corrected): `upgrade_save` treats a missing `inventory`,
`storage` or `monsters` field as an empty default and returns a record,
for any values the remaining fields may hold — but it is not total on
records whose monster entries lack a `slug` field: there `mon['slug']`
raises KeyError (see the counterexample). -/
theorem upgrade_save_total_on_missing_fields (entries : List (String × Value))
    (h1 : dictGet entries "inventory" = none)
    (h2 : dictGet entries "storage" = none)
    (h3 : dictGet entries "monsters" = none) :
    (upgrade_save (.dict entries)).isSome = true := by
  have hm : dictGet (dictInsert entries "inventory" (Value.dict []))
      "monsters" = none := by
    rw [dictGet_dictInsert_ne entries "inventory" "monsters" (Value.dict [])
      (by decide)]
    exact h3
  cases hz : isZeroNum ((dictGet entries "version").getD (Value.num 0)) with
  | false => simp [upgrade_save, hz]
  | true =>
    have e1 : fix_items (Value.dict []) = some (Value.dict []) := rfl
    have e2 : dictInsert ([] : List (String × Value)) "items" (Value.dict [])
        = [("items", Value.dict [])] := rfl
    have e3 : dictGet ([] : List (String × Value)) "items" = none := rfl
    have e4 : dictGet [("items", Value.dict [])] "monsters" = none := rfl
    have e5 : fixMonsters (Value.list []) = some (Value.list []) := rfl
    simp [upgrade_save, hz, h1, h2, hm, e1, e2, e3, e4, e5]

/-- Witness for C7: the empty record is missing all three container
fields, and `upgrade_save` returns a record on it. -/
theorem upgrade_save_total_on_missing_fields_witness :
    (upgrade_save (.dict ([] : List (String × Value)))).isSome = true :=
  upgrade_save_total_on_missing_fields [] rfl rfl rfl

end TuxemonSave
